import Mathlib

/-!
Verification of the `server_config_model` package: a shallow embedding of
`src/server_config_model/__init__.py` (pydantic configuration schemas plus
load / save / backup / rollback file routines), with theorems settling the
spec claims about it.

JSON values are modelled by an inductive `JVal`; Python dicts appearing as
JSON objects or as keyword-argument payloads are association lists
`List (String × JVal)`.  Machine state touched by the I/O routines is an
explicit `FS` record; code that can raise returns `Except PyError`.
-/

set_option maxHeartbeats 1600000

/-- A JSON value as produced by Python `json.load` (only integer numbers
occur in this schema, so numbers are carried as `Int`). -/
inductive JVal where
  | jnull : JVal
  | jbool (b : Bool) : JVal
  | jnum (n : Int) : JVal
  | jstr (s : String) : JVal
  | jarr (xs : List JVal) : JVal
  | jobj (fields : List (String × JVal)) : JVal

/-- Dictionary lookup on an association list (Python dicts have unique keys,
so first-match lookup agrees with dict access). -/
def getField : List (String × JVal) → String → Option JVal
  | [], _ => none
  | (n, v) :: rest, name => if n = name then some v else getField rest name

/-- Exceptions the Python code can raise or catch. -/
inductive PyError where
  | ioError (msg : String) : PyError
  | jsonDecodeError (msg : String) : PyError
  | validationError (msg : String) : PyError
  | attributeError (msg : String) : PyError

/-! ## Enumerations (lines 15-32 of the source) -/

inductive EncodingEnum where
  | ASCII | UTF8 | UTF16 | ISO88591 | UTF32
deriving DecidableEq

def EncodingEnum.value : EncodingEnum → String
  | .ASCII => "ascii"
  | .UTF8 => "utf-8"
  | .UTF16 => "utf-16"
  | .ISO88591 => "iso-8859-1"
  | .UTF32 => "utf-32"

inductive FormatEnum where
  | STX_ETX | CRLF | LF | CR
deriving DecidableEq

def FormatEnum.value : FormatEnum → String
  | .STX_ETX => "STX/ETX"
  | .CRLF => "CRLF"
  | .LF => "LF"
  | .CR => "CR"

inductive ComputerTypeEnum where
  | Vision | Server
deriving DecidableEq

def ComputerTypeEnum.value : ComputerTypeEnum → String
  | .Vision => "vision"
  | .Server => "server"

/-! ## Model structures (lines 35-107 of the source), with the source's
field defaults. -/

structure InputSerialConfigItem where
  port : String := "COM3"
  baudrate : Int := 38400
  pin : Int := 2
  camera_delay : Int := 10
deriving DecidableEq

structure OutputSerialConfigItem where
  port : String := "COM3"
  baudrate : Int := 38400
  offset : Int := 0
  pin : Int := 30
deriving DecidableEq

structure SerialConfig where
  inputs : List InputSerialConfigItem := [{}]
  outputs : List OutputSerialConfigItem := [{}]
  test_message_encode_type : EncodingEnum := .UTF8
  test_message_format_type : FormatEnum := .CRLF
  baudrate : Int := 38400
  test_message_to_sorter : String := "0"
  production_result_sender_module : Option String := none
  is_production_sketch_uploaded : Bool := false
  is_read_configured : Bool := false
  is_send_configured : Bool := false
  signal_count_per_pulse : Int := 2
deriving DecidableEq

structure ArduinoConfig where
  port : String := "COM3"
  baudrate : Int := 38400
  test_message : String := "test_message"
  is_upload_port_assigned : Bool := false
deriving DecidableEq

structure ProgramConfig where
  line_count : Int := 0
deriving DecidableEq

structure ServerConfig where
  program_check : Bool := false
  test_status : Bool := true
  program_config : ProgramConfig := {}
  arduino_config : ArduinoConfig := {}
  serial_config : SerialConfig := {}
deriving DecidableEq

/-- VisionConfig has no fields in the source (`class VisionConfig: pass`). -/
structure VisionConfig where
deriving DecidableEq

/-- RootConfig.  The source declares `config : Optional[Union[ServerConfig]]`,
which is `Optional[ServerConfig]`: only a ServerConfig or None is storable in
the field, whatever the `mode="before"` validator returns. -/
structure RootConfig where
  config_type : ComputerTypeEnum := .Vision
  config : Option ServerConfig := none
deriving DecidableEq

/-! ## Field validators (lines 44-48 and 55-59 of the source) -/

/-- InputSerialConfigItem.check_pin_range: raise unless 2 <= v <= 9,
return v unchanged. -/
def InputSerialConfigItem.check_pin_range (v : Int) : Except String Int :=
  if ¬(2 ≤ v ∧ v ≤ 9) then .error "pin must be between 2 and 9" else .ok v

/-- OutputSerialConfigItem.check_pin_range: raise unless 30 <= v <= 37,
return v unchanged. -/
def OutputSerialConfigItem.check_pin_range (v : Int) : Except String Int :=
  if ¬(30 ≤ v ∧ v ≤ 37) then .error "pin must be between 30 and 37" else .ok v

/-- Constructing `InputSerialConfigItem(port=..., baudrate=..., pin=...,
camera_delay=...)`: pydantic runs `check_pin_range` on the supplied pin. -/
def mkInputSerialConfigItem (port : String) (baudrate pin camera_delay : Int) :
    Except String InputSerialConfigItem :=
  match InputSerialConfigItem.check_pin_range pin with
  | .error e => .error e
  | .ok p => .ok { port := port, baudrate := baudrate, pin := p,
                   camera_delay := camera_delay }

/-- Constructing `OutputSerialConfigItem(port=..., baudrate=..., offset=...,
pin=...)`: pydantic runs `check_pin_range` on the supplied pin. -/
def mkOutputSerialConfigItem (port : String) (baudrate offset pin : Int) :
    Except String OutputSerialConfigItem :=
  match OutputSerialConfigItem.check_pin_range pin with
  | .error e => .error e
  | .ok p => .ok { port := port, baudrate := baudrate, offset := offset,
                   pin := p }

/-! ## Deserialization (pydantic `model_validate` on JSON data)

Each model parses a JSON object field by field: a missing key takes the
declared default (pydantic does not run field validators on defaults), a
present key must have the declared type.  Extra keys are ignored
(pydantic's default `extra="ignore"`).  Pydantic's lax coercions of
non-canonical inputs (e.g. numeric strings for ints) are outside the schema
traffic this repository generates and are not modelled. -/

def parseBool : JVal → Except String Bool
  | .jbool b => .ok b
  | _ => .error "Input should be a valid boolean"

def parseInt : JVal → Except String Int
  | .jnum n => .ok n
  | _ => .error "Input should be a valid integer"

def parseStr : JVal → Except String String
  | .jstr s => .ok s
  | _ => .error "Input should be a valid string"

def parseOptStr : JVal → Except String (Option String)
  | .jnull => .ok none
  | .jstr s => .ok (some s)
  | _ => .error "Input should be a valid string"

def parseEncoding : JVal → Except String EncodingEnum
  | .jstr s =>
    if s = "ascii" then .ok .ASCII
    else if s = "utf-8" then .ok .UTF8
    else if s = "utf-16" then .ok .UTF16
    else if s = "iso-8859-1" then .ok .ISO88591
    else if s = "utf-32" then .ok .UTF32
    else .error "Input should be a valid EncodingEnum"
  | _ => .error "Input should be a valid EncodingEnum"

def parseFormat : JVal → Except String FormatEnum
  | .jstr s =>
    if s = "STX/ETX" then .ok .STX_ETX
    else if s = "CRLF" then .ok .CRLF
    else if s = "LF" then .ok .LF
    else if s = "CR" then .ok .CR
    else .error "Input should be a valid FormatEnum"
  | _ => .error "Input should be a valid FormatEnum"

def parseComputerType : JVal → Except String ComputerTypeEnum
  | .jstr s =>
    if s = "vision" then .ok ComputerTypeEnum.Vision
    else if s = "server" then .ok ComputerTypeEnum.Server
    else .error "Input should be a valid ComputerTypeEnum"
  | _ => .error "Input should be a valid ComputerTypeEnum"

/-- Parse one optional field: absent keys take the declared default. -/
def parseField (fields : List (String × JVal)) (name : String) (dflt : α)
    (p : JVal → Except String α) : Except String α :=
  match getField fields name with
  | none => .ok dflt
  | some v => p v

/-- Parse a JSON list element-wise (first failure wins, as in pydantic). -/
def parseList (p : JVal → Except String α) : List JVal → Except String (List α)
  | [] => .ok []
  | x :: xs =>
    match p x with
    | .error e => .error e
    | .ok a =>
      match parseList p xs with
      | .error e => .error e
      | .ok rest => .ok (a :: rest)

def parseJList (p : JVal → Except String α) : JVal → Except String (List α)
  | .jarr xs => parseList p xs
  | _ => .error "Input should be a valid list"

def parseProgramConfig : JVal → Except String ProgramConfig
  | .jobj fs => do
    let line_count ← parseField fs "line_count" 0 parseInt
    .ok { line_count := line_count }
  | _ => .error "Input should be a valid dictionary or instance of ProgramConfig"

def parseArduinoConfig : JVal → Except String ArduinoConfig
  | .jobj fs => do
    let port ← parseField fs "port" "COM3" parseStr
    let baudrate ← parseField fs "baudrate" 38400 parseInt
    let test_message ← parseField fs "test_message" "test_message" parseStr
    let is_upload_port_assigned ← parseField fs "is_upload_port_assigned" false parseBool
    .ok { port := port, baudrate := baudrate, test_message := test_message,
          is_upload_port_assigned := is_upload_port_assigned }
  | _ => .error "Input should be a valid dictionary or instance of ArduinoConfig"

/-- Parse an input item; a supplied pin goes through `check_pin_range`,
the default pin (2) does not (pydantic skips validators on defaults). -/
def parseInputItem : JVal → Except String InputSerialConfigItem
  | .jobj fs => do
    let port ← parseField fs "port" "COM3" parseStr
    let baudrate ← parseField fs "baudrate" 38400 parseInt
    let pin ← match getField fs "pin" with
      | none => .ok 2
      | some v => do
        let n ← parseInt v
        InputSerialConfigItem.check_pin_range n
    let camera_delay ← parseField fs "camera_delay" 10 parseInt
    .ok { port := port, baudrate := baudrate, pin := pin,
          camera_delay := camera_delay }
  | _ => .error "Input should be a valid dictionary or instance of InputSerialConfigItem"

/-- Parse an output item; a supplied pin goes through `check_pin_range`. -/
def parseOutputItem : JVal → Except String OutputSerialConfigItem
  | .jobj fs => do
    let port ← parseField fs "port" "COM3" parseStr
    let baudrate ← parseField fs "baudrate" 38400 parseInt
    let offset ← parseField fs "offset" 0 parseInt
    let pin ← match getField fs "pin" with
      | none => .ok 30
      | some v => do
        let n ← parseInt v
        OutputSerialConfigItem.check_pin_range n
    .ok { port := port, baudrate := baudrate, offset := offset, pin := pin }
  | _ => .error "Input should be a valid dictionary or instance of OutputSerialConfigItem"

def parseSerialConfig : JVal → Except String SerialConfig
  | .jobj fs => do
    let inputs ← parseField fs "inputs" [{}] (parseJList parseInputItem)
    let outputs ← parseField fs "outputs" [{}] (parseJList parseOutputItem)
    let enc ← parseField fs "test_message_encode_type" EncodingEnum.UTF8 parseEncoding
    let fmt ← parseField fs "test_message_format_type" FormatEnum.CRLF parseFormat
    let baudrate ← parseField fs "baudrate" 38400 parseInt
    let tms ← parseField fs "test_message_to_sorter" "0" parseStr
    let prsm ← parseField fs "production_result_sender_module" none parseOptStr
    let ipsu ← parseField fs "is_production_sketch_uploaded" false parseBool
    let irc ← parseField fs "is_read_configured" false parseBool
    let isc ← parseField fs "is_send_configured" false parseBool
    let scpp ← parseField fs "signal_count_per_pulse" 2 parseInt
    .ok { inputs := inputs, outputs := outputs,
          test_message_encode_type := enc, test_message_format_type := fmt,
          baudrate := baudrate, test_message_to_sorter := tms,
          production_result_sender_module := prsm,
          is_production_sketch_uploaded := ipsu,
          is_read_configured := irc, is_send_configured := isc,
          signal_count_per_pulse := scpp }
  | _ => .error "Input should be a valid dictionary or instance of SerialConfig"

def parseServerConfig : JVal → Except String ServerConfig
  | .jobj fs => do
    let program_check ← parseField fs "program_check" false parseBool
    let test_status ← parseField fs "test_status" true parseBool
    let program_config ← parseField fs "program_config" {} parseProgramConfig
    let arduino_config ← parseField fs "arduino_config" {} parseArduinoConfig
    let serial_config ← parseField fs "serial_config" {} parseSerialConfig
    .ok { program_check := program_check, test_status := test_status,
          program_config := program_config, arduino_config := arduino_config,
          serial_config := serial_config }
  | _ => .error "Input should be a valid dictionary or instance of ServerConfig"

/-! ## Serialization (pydantic `model_dump` followed by `json.dump`);
fields appear in declaration order. -/

def ProgramConfig.dump (p : ProgramConfig) : JVal :=
  .jobj [("line_count", .jnum p.line_count)]

def ArduinoConfig.dump (a : ArduinoConfig) : JVal :=
  .jobj [("port", .jstr a.port), ("baudrate", .jnum a.baudrate),
         ("test_message", .jstr a.test_message),
         ("is_upload_port_assigned", .jbool a.is_upload_port_assigned)]

def InputSerialConfigItem.dump (i : InputSerialConfigItem) : JVal :=
  .jobj [("port", .jstr i.port), ("baudrate", .jnum i.baudrate),
         ("pin", .jnum i.pin), ("camera_delay", .jnum i.camera_delay)]

def OutputSerialConfigItem.dump (o : OutputSerialConfigItem) : JVal :=
  .jobj [("port", .jstr o.port), ("baudrate", .jnum o.baudrate),
         ("offset", .jnum o.offset), ("pin", .jnum o.pin)]

def SerialConfig.dump (s : SerialConfig) : JVal :=
  .jobj [("inputs", .jarr (s.inputs.map InputSerialConfigItem.dump)),
         ("outputs", .jarr (s.outputs.map OutputSerialConfigItem.dump)),
         ("test_message_encode_type", .jstr s.test_message_encode_type.value),
         ("test_message_format_type", .jstr s.test_message_format_type.value),
         ("baudrate", .jnum s.baudrate),
         ("test_message_to_sorter", .jstr s.test_message_to_sorter),
         ("production_result_sender_module",
           match s.production_result_sender_module with
           | none => .jnull
           | some m => .jstr m),
         ("is_production_sketch_uploaded", .jbool s.is_production_sketch_uploaded),
         ("is_read_configured", .jbool s.is_read_configured),
         ("is_send_configured", .jbool s.is_send_configured),
         ("signal_count_per_pulse", .jnum s.signal_count_per_pulse)]

def ServerConfig.dumpFields (c : ServerConfig) : List (String × JVal) :=
  [("program_check", .jbool c.program_check),
   ("test_status", .jbool c.test_status),
   ("program_config", c.program_config.dump),
   ("arduino_config", c.arduino_config.dump),
   ("serial_config", c.serial_config.dump)]

def ServerConfig.dump (c : ServerConfig) : JVal := .jobj c.dumpFields

def RootConfig.dump (rc : RootConfig) : JVal :=
  .jobj [("config_type", .jstr rc.config_type.value),
         ("config", match rc.config with
                    | none => .jnull
                    | some c => c.dump)]

/-! ## RootConfig construction (lines 105-130 of the source)

`RootConfig.validate_config` is a `mode="before"` field validator: it sees
the raw Python value passed for `config` (None, a dict, a model instance, or
any other value), and whatever it returns is then validated against the
declared field type `Optional[Union[ServerConfig]]`, i.e.
`Optional[ServerConfig]`. -/

/-- A Python value arriving at the `config` field validator. -/
inductive PyConfigArg where
  | pyNone : PyConfigArg
  | pyBool (b : Bool) : PyConfigArg
  | pyNum (n : Int) : PyConfigArg
  | pyStr (s : String) : PyConfigArg
  | pyList (xs : List JVal) : PyConfigArg
  | pyDict (fields : List (String × JVal)) : PyConfigArg
  | pyServer (c : ServerConfig) : PyConfigArg
  | pyVision : PyConfigArg

/-- Python truthiness of such a value (`if not config:`). -/
def PyConfigArg.falsy : PyConfigArg → Bool
  | .pyNone => true
  | .pyBool b => !b
  | .pyNum n => n == 0
  | .pyStr s => s == ""
  | .pyList xs => xs.isEmpty
  | .pyDict fields => fields.isEmpty
  | .pyServer _ => false
  | .pyVision => false

/-- How a raw JSON value for the `config` key enters the validator when the
whole RootConfig is parsed from JSON data. -/
def jvalToConfigArg : JVal → PyConfigArg
  | .jnull => .pyNone
  | .jbool b => .pyBool b
  | .jnum n => .pyNum n
  | .jstr s => .pyStr s
  | .jarr xs => .pyList xs
  | .jobj fields => .pyDict fields

/-- RootConfig.validate_config (the `mode="before"` validator).  A falsy
value becomes None (bare `return`).  Under vision, a dict is coerced with
`VisionConfig(**dict)` (which never fails: VisionConfig has no fields and
extra keys are ignored) and a VisionConfig instance passes; under server, a
dict is coerced with `ServerConfig(**dict)` and a ServerConfig instance
passes; anything else raises ValueError. -/
def RootConfig.validate_config (config_type : ComputerTypeEnum)
    (config : PyConfigArg) : Except String PyConfigArg :=
  if config.falsy then .ok .pyNone
  else
    match config_type with
    | .Vision =>
      match config with
      | .pyDict _ => .ok .pyVision
      | .pyVision => .ok .pyVision
      | _ => .error "When config_type is vision, config must be of type VisionConfig"
    | .Server =>
      match config with
      | .pyDict fields =>
        match parseServerConfig (.jobj fields) with
        | .error e => .error e
        | .ok c => .ok (.pyServer c)
      | .pyServer c => .ok (.pyServer c)
      | _ => .error "When config_type is server, config must be of type ServerConfig"

/-- After the before-validator, pydantic validates the returned value
against the declared field type `Optional[ServerConfig]`: None and
ServerConfig instances pass, a dict would be parsed as ServerConfig, and
anything else (in particular a VisionConfig) is a validation error. -/
def coerceConfigField : PyConfigArg → Except String (Option ServerConfig)
  | .pyNone => .ok none
  | .pyServer c => .ok (some c)
  | .pyDict fields =>
    match parseServerConfig (.jobj fields) with
    | .error e => .error e
    | .ok c => .ok (some c)
  | _ => .error "Input should be a valid dictionary or instance of ServerConfig"

/-- Constructing `RootConfig(config_type=..., config=...)`. -/
def mkRootConfig (config_type : ComputerTypeEnum) (config : PyConfigArg) :
    Except String RootConfig :=
  match RootConfig.validate_config config_type config with
  | .error e => .error e
  | .ok v =>
    match coerceConfigField v with
    | .error e => .error e
    | .ok c => .ok { config_type := config_type, config := c }

/-- `RootConfig.model_validate(data)` / `RootConfig(**data)` on JSON data:
missing keys take the field defaults without running the validator
(pydantic skips validators on defaults); a present `config` key runs the
before-validator and then the field-type check. -/
def parseRootConfig : JVal → Except String RootConfig
  | .jobj fields =>
    let ctR : Except String ComputerTypeEnum :=
      match getField fields "config_type" with
      | none => .ok .Vision
      | some v => parseComputerType v
    match ctR with
    | .error e => .error e
    | .ok ct =>
      match getField fields "config" with
      | none => .ok { config_type := ct, config := none }
      | some v =>
        match RootConfig.validate_config ct (jvalToConfigArg v) with
        | .error e => .error e
        | .ok pv =>
          match coerceConfigField pv with
          | .error e => .error e
          | .ok c => .ok { config_type := ct, config := c }
  | _ => .error "Input should be a valid dictionary or instance of RootConfig"

/-! ## Hard-coded defaults (lines 213-225 and 269-281 of the source) -/

/-- DEFAULT_SERVER_ROOT (module level, lines 213-225). -/
def DEFAULT_SERVER_ROOT : RootConfig :=
  { config_type := .Server,
    config := some
      { arduino_config := { port := "COM3" },
        serial_config :=
          { inputs := [{ port := "COM4" }],
            outputs := [{ port := "COM5", offset := 23 },
                        { port := "COM6", offset := 23 }] } } }

/-- DEFAULT_CONFIG, built inside `load_config`'s except branch
(lines 269-281); textually identical to DEFAULT_SERVER_ROOT. -/
def DEFAULT_CONFIG : RootConfig :=
  { config_type := .Server,
    config := some
      { arduino_config := { port := "COM3" },
        serial_config :=
          { inputs := [{ port := "COM4" }],
            outputs := [{ port := "COM5", offset := 23 },
                        { port := "COM6", offset := 23 }] } } }

/-! ## File-system state

The routines touch: the live config file `~/aiofarm_config.json`, the backup
directory `~/aiofarm_config_backup`, and the two manifest files
`pyproject.toml` / `poetry.lock` in the current working directory. -/

/-- Content of one on-disk file: either bytes that parse as JSON (with the
encoding, `indent`, and `ensure_ascii` options they were written with), or
raw bytes that do not parse as JSON. -/
inductive FileData where
  | jsonText (j : JVal) (encoding : String) (indent : Option Nat)
      (ensureAscii : Bool) : FileData
  | rawText (s : String) : FileData

structure FS where
  configFile : Option FileData
  configReadable : Bool := true
  configWritable : Bool := true
  backupDir : Option (List (String × FileData)) := none
  pyprojectFile : Option FileData := none
  poetryLockFile : Option FileData := none

/-- Reading and JSON-parsing `~/aiofarm_config.json`: a missing file raises
FileNotFoundError, an unreadable one PermissionError, non-JSON bytes
json.JSONDecodeError. -/
def readConfigJson (fs : FS) : Except PyError JVal :=
  match fs.configFile with
  | none => .error (.ioError "FileNotFoundError")
  | some fd =>
    if fs.configReadable then
      match fd with
      | .jsonText j _ _ _ => .ok j
      | .rawText _ => .error (.jsonDecodeError "Expecting value")
    else .error (.ioError "PermissionError")

/-- Opening `~/aiofarm_config.json` for writing and `json.dump`-ing into it:
raises PermissionError when the path is not writable. -/
def writeConfig (fs : FS) (j : JVal) (encoding : String) (indent : Option Nat)
    (ensureAscii : Bool) : Except PyError FS :=
  if fs.configWritable then
    .ok { fs with configFile := some (.jsonText j encoding indent ensureAscii) }
  else .error (.ioError "PermissionError")

/-- Overwrite-or-insert a file in a directory listing (`shutil.copy2`). -/
def dirInsert (files : List (String × FileData)) (name : String)
    (fd : FileData) : List (String × FileData) :=
  (files.filter fun p => !(p.1 == name)) ++ [(name, fd)]

/-! ## Backup / rollback / listing (lines 133-203 of the source) -/

/-- Extraction step of `list_unique_timestamps` for one backup filename:
keep names starting with `aiofarm_config_`, split on underscores, and take
the last part up to its first dot. -/
def timestampOfFilename (filename : String) : Option String :=
  if filename.startsWith "aiofarm_config_" then
    let parts := filename.splitOn "_"
    if parts.length > 1 then
      match parts.getLast? with
      | some last => some ((last.splitOn ".").headI)
      | none => none
    else none
  else none

/-- Insertion into Python's `sorted` output (string order). -/
def insertSorted (x : String) : List String → List String
  | [] => [x]
  | y :: ys => if x ≤ y then x :: y :: ys else y :: insertSorted x ys

def sortStrings (xs : List String) : List String := xs.foldr insertSorted []

/-- Python `sorted(set(xs))`: distinct elements in string order. -/
def pyUniqueSorted (xs : List String) : List String :=
  sortStrings (xs.foldl (fun acc x => if x ∈ acc then acc else acc ++ [x]) [])

/-- list_unique_timestamps (lines 133-144).  `os.listdir(backup_dir)` raises
FileNotFoundError when the backup directory does not exist; there is no
guard and no directory creation here. -/
def list_unique_timestamps (fs : FS) : Except PyError (List String) :=
  match fs.backupDir with
  | none => .error (.ioError "FileNotFoundError: aiofarm_config_backup")
  | some files =>
    .ok (pyUniqueSorted (files.filterMap fun p => timestampOfFilename p.1))

/-- rollback_config (lines 147-169).  For each tracked file the source
computes `target_path = os.path.join(backup_dir, original_file)` and copies
the timestamped backup onto that target — a path inside the backup
directory, not the live location (the second `home_dir = ...` on line 161 is
never used).  Missing backups are skipped with a printed notice. -/
def rollback_config (timestamp : String) (fs : FS) : FS :=
  let step := fun (fs : FS) (original_file backup_file : String) =>
    match fs.backupDir with
    | none => fs
    | some files =>
      match files.find? (fun p => p.1 == backup_file) with
      | none => fs
      | some pair =>
        { fs with backupDir := some (dirInsert files original_file pair.2) }
  let fs := step fs "aiofarm_config.json"
    ("aiofarm_config_" ++ timestamp ++ ".json")
  let fs := step fs "pyproject.toml" ("pyproject_" ++ timestamp ++ ".toml")
  step fs "poetry.lock" ("poetry_" ++ timestamp ++ ".lock")

/-- backup_config (lines 172-203), with the wall-clock timestamp string as
an explicit argument.  Creates the backup directory when absent, then copies
each existing source file to `<stem>_<timestamp>.<ext>` in it (the source
computes stem and extension by splitting the three fixed literal names on
"."); missing sources are skipped with a printed notice. -/
def backup_config (timestamp : String) (fs : FS) : FS :=
  let dir := match fs.backupDir with
    | none => []
    | some files => files
  let step := fun (dir : List (String × FileData)) (backup_file_name : String)
      (source_file : Option FileData) =>
    match source_file with
    | some fd => dirInsert dir backup_file_name fd
    | none => dir
  let dir := step dir ("aiofarm_config_" ++ timestamp ++ ".json") fs.configFile
  let dir := step dir ("pyproject_" ++ timestamp ++ ".toml") fs.pyprojectFile
  let dir := step dir ("poetry_" ++ timestamp ++ ".lock") fs.poetryLockFile
  { fs with backupDir := some dir }

/-! ## Persistence (lines 206-283 of the source) -/

/-- save_config (lines 206-210).  `RootConfig.model_validate(root_config)`
on an instance is a pass-through (pydantic's default
`revalidate_instances="never"`); `RootConfig(**root_config.model_dump())`
re-validates the dumped tree and can raise; then the file is opened with
`encoding="utf-8"` and written with `json.dump(..., ensure_ascii=False,
indent=4)`.  The function body has no `return` and no `try`: it returns
None and lets any exception propagate. -/
def save_config (root_config : RootConfig) (fs : FS) :
    Except PyError (Unit × FS) :=
  match mkRootConfig root_config.config_type
      (match root_config.config with
       | none => PyConfigArg.pyNone
       | some c => PyConfigArg.pyDict c.dumpFields) with
  | .error e => .error (.validationError e)
  | .ok _ =>
    match writeConfig fs root_config.dump "utf-8" (some 4) false with
    | .error e => .error e
    | .ok fs2 => .ok ((), fs2)

/-- The try-block of load_server_root_config (lines 236-242): read and parse
the file, build a RootConfig, then re-validate
`ServerConfig(**root_config.config.model_dump())` — which raises
AttributeError when `config` is None. -/
def tryLoadForServer (fs : FS) : Except PyError RootConfig :=
  match readConfigJson fs with
  | .error e => .error e
  | .ok data =>
    match parseRootConfig data with
    | .error e => .error (.validationError e)
    | .ok rc =>
      match rc.config with
      | none => .error (.attributeError "NoneType object has no attribute model_dump")
      | some c =>
        match parseServerConfig c.dump with
        | .error e => .error (.validationError e)
        | .ok _ => .ok rc

/-- load_server_root_config (lines 233-256).  Any exception in the
try-block switches to DEFAULT_SERVER_ROOT; so does a loaded config whose
config_type is not Server or whose config payload is falsy.  In either
wrong-process case the file is rewritten (`open(..., "w")` with no encoding
argument, `json.dump(..., indent=4)` with default `ensure_ascii=True`); this
write is outside the try-block, so its failure propagates. -/
def load_server_root_config (fs : FS) : Except PyError (RootConfig × FS) :=
  let res := match tryLoadForServer fs with
    | .ok rc => (false, rc)
    | .error _ => (true, DEFAULT_SERVER_ROOT)
  let res := if res.2.config_type ≠ ComputerTypeEnum.Server ∨ res.2.config = none
    then (true, DEFAULT_SERVER_ROOT) else res
  if res.1 then
    match writeConfig fs res.2.dump "locale" (some 4) true with
    | .error e => .error e
    | .ok fs2 => .ok (res.2, fs2)
  else .ok (res.2, fs)

/-- The try-block of load_config (lines 261-266): read, JSON-parse and
model_validate. -/
def tryLoad (fs : FS) : Except PyError RootConfig :=
  match readConfigJson fs with
  | .error e => .error e
  | .ok data =>
    match parseRootConfig data with
    | .error e => .error (.validationError e)
    | .ok rc => .ok rc

/-- load_config (lines 259-283): on any failure print the error and return
the hard-coded DEFAULT_CONFIG; the file is never written. -/
def load_config (fs : FS) : Except PyError (RootConfig × FS) :=
  match tryLoad fs with
  | .ok config => .ok (config, fs)
  | .error _ => .ok (DEFAULT_CONFIG, fs)

/-! ## Validity predicates

A Lean value of these structure types is `valid` when every pin lies in its
validator's range — exactly the values constructible through pydantic and
parseable from JSON. -/

def ServerConfig.validPins (c : ServerConfig) : Prop :=
  (∀ i ∈ c.serial_config.inputs, 2 ≤ i.pin ∧ i.pin ≤ 9) ∧
  (∀ o ∈ c.serial_config.outputs, 30 ≤ o.pin ∧ o.pin ≤ 37)

/-- A RootConfig value that pydantic can actually hold: a vision root never
carries a payload (claim-relevant: the declared field type rejects any
present payload under vision), and any payload has in-range pins. -/
def RootConfig.valid (rc : RootConfig) : Prop :=
  (rc.config_type = ComputerTypeEnum.Server ∨ rc.config = none) ∧
  (∀ c, rc.config = some c → c.validPins)

/-! ## Round-trip lemmas: parsing a dumped tree recovers it -/

theorem exceptOkBind (a : α) (f : α → Except ε β) :
    (Except.ok a : Except ε α) >>= f = f a := rfl

theorem parseEncoding_value (e : EncodingEnum) :
    parseEncoding (.jstr e.value) = .ok e := by
  cases e <;> rfl

theorem parseFormat_value (f : FormatEnum) :
    parseFormat (.jstr f.value) = .ok f := by
  cases f <;> rfl

theorem parseComputerType_value (ct : ComputerTypeEnum) :
    parseComputerType (.jstr ct.value) = .ok ct := by
  cases ct <;> rfl

theorem parseProgramConfig_dump (p : ProgramConfig) :
    parseProgramConfig p.dump = .ok p := rfl

theorem parseArduinoConfig_dump (a : ArduinoConfig) :
    parseArduinoConfig a.dump = .ok a := rfl

theorem check_pin_range_input_ok (v : Int) (h1 : 2 ≤ v) (h2 : v ≤ 9) :
    InputSerialConfigItem.check_pin_range v = .ok v := by
  simp [InputSerialConfigItem.check_pin_range, h1, h2]

theorem check_pin_range_output_ok (v : Int) (h1 : 30 ≤ v) (h2 : v ≤ 37) :
    OutputSerialConfigItem.check_pin_range v = .ok v := by
  simp [OutputSerialConfigItem.check_pin_range, h1, h2]

theorem parseInputItem_dump (i : InputSerialConfigItem)
    (h1 : 2 ≤ i.pin) (h2 : i.pin ≤ 9) :
    parseInputItem i.dump = .ok i := by
  simp [parseInputItem, InputSerialConfigItem.dump, parseField, getField,
        parseStr, parseInt, exceptOkBind, check_pin_range_input_ok i.pin h1 h2]

theorem parseOutputItem_dump (o : OutputSerialConfigItem)
    (h1 : 30 ≤ o.pin) (h2 : o.pin ≤ 37) :
    parseOutputItem o.dump = .ok o := by
  simp [parseOutputItem, OutputSerialConfigItem.dump, parseField, getField,
        parseStr, parseInt, exceptOkBind, check_pin_range_output_ok o.pin h1 h2]

theorem parseList_inputs_dump (l : List InputSerialConfigItem)
    (h : ∀ i ∈ l, 2 ≤ i.pin ∧ i.pin ≤ 9) :
    parseList parseInputItem (l.map InputSerialConfigItem.dump) = .ok l := by
  induction l with
  | nil => rfl
  | cons a t ih =>
    have ha := h a (List.mem_cons_self a t)
    have ht := ih fun i hi => h i (List.mem_cons_of_mem a hi)
    simp [parseList, parseInputItem_dump a ha.1 ha.2, ht]

theorem parseList_outputs_dump (l : List OutputSerialConfigItem)
    (h : ∀ o ∈ l, 30 ≤ o.pin ∧ o.pin ≤ 37) :
    parseList parseOutputItem (l.map OutputSerialConfigItem.dump) = .ok l := by
  induction l with
  | nil => rfl
  | cons a t ih =>
    have ha := h a (List.mem_cons_self a t)
    have ht := ih fun o ho => h o (List.mem_cons_of_mem a ho)
    simp [parseList, parseOutputItem_dump a ha.1 ha.2, ht]

theorem parseSerialConfig_dump (s : SerialConfig)
    (hin : ∀ i ∈ s.inputs, 2 ≤ i.pin ∧ i.pin ≤ 9)
    (hout : ∀ o ∈ s.outputs, 30 ≤ o.pin ∧ o.pin ≤ 37) :
    parseSerialConfig s.dump = .ok s := by
  obtain ⟨ins, outs, enc, fmt, bd, tms, prsm, ipsu, irc, isc, scpp⟩ := s
  cases prsm <;>
    simp [parseSerialConfig, SerialConfig.dump, parseField, getField,
          parseJList, parseList_inputs_dump _ hin, parseList_outputs_dump _ hout,
          parseEncoding_value, parseFormat_value, parseInt, parseStr,
          parseBool, parseOptStr, exceptOkBind]

theorem parseServerConfig_dump (c : ServerConfig) (h : c.validPins) :
    parseServerConfig (.jobj c.dumpFields) = .ok c := by
  obtain ⟨hin, hout⟩ := h
  simp [parseServerConfig, ServerConfig.dumpFields, parseField, getField,
        parseBool, parseProgramConfig_dump, parseArduinoConfig_dump,
        exceptOkBind, parseSerialConfig_dump c.serial_config hin hout]

theorem validate_config_server_dump (c : ServerConfig) (h : c.validPins) :
    RootConfig.validate_config ComputerTypeEnum.Server (.pyDict c.dumpFields) =
      .ok (.pyServer c) := by
  have hne : (ServerConfig.dumpFields c).isEmpty = false := rfl
  simp [RootConfig.validate_config, PyConfigArg.falsy, hne,
        parseServerConfig_dump c h]

theorem parseRootConfig_dump (rc : RootConfig) (h : rc.valid) :
    parseRootConfig rc.dump = .ok rc := by
  obtain ⟨hty, hpins⟩ := h
  obtain ⟨ct, cfg⟩ := rc
  cases cfg with
  | none => cases ct <;> rfl
  | some c =>
    rcases hty with hty | hty
    · cases hty
      simp [parseRootConfig, RootConfig.dump, ComputerTypeEnum.value, getField,
            parseComputerType, ServerConfig.dump, jvalToConfigArg,
            validate_config_server_dump c (hpins c rfl), coerceConfigField]
    · exact absurd hty (by simp)

theorem mkRootConfig_dump (rc : RootConfig) (h : rc.valid) :
    mkRootConfig rc.config_type
      (match rc.config with
       | none => PyConfigArg.pyNone
       | some c => PyConfigArg.pyDict c.dumpFields) = .ok rc := by
  obtain ⟨hty, hpins⟩ := h
  obtain ⟨ct, cfg⟩ := rc
  cases cfg with
  | none => cases ct <;> rfl
  | some c =>
    rcases hty with hty | hty
    · cases hty
      simp [mkRootConfig, validate_config_server_dump c (hpins c rfl),
            coerceConfigField]
    · exact absurd hty (by simp)

/-! ## Helper lemmas for the claim theorems -/

theorem check_input_returns_pin (v q : Int)
    (h : InputSerialConfigItem.check_pin_range v = .ok q) : q = v := by
  unfold InputSerialConfigItem.check_pin_range at h
  split at h
  · exact Except.noConfusion h
  · injection h with h2
    exact h2.symm

theorem check_output_returns_pin (v q : Int)
    (h : OutputSerialConfigItem.check_pin_range v = .ok q) : q = v := by
  unfold OutputSerialConfigItem.check_pin_range at h
  split at h
  · exact Except.noConfusion h
  · injection h with h2
    exact h2.symm

/-- The default server payload (the ServerConfig(...) argument on
lines 215-224). -/
def DEFAULT_SERVER_PAYLOAD : ServerConfig :=
  { arduino_config := { port := "COM3" },
    serial_config :=
      { inputs := [{ port := "COM4" }],
        outputs := [{ port := "COM5", offset := 23 },
                    { port := "COM6", offset := 23 }] } }

theorem DEFAULT_SERVER_ROOT_eq :
    DEFAULT_SERVER_ROOT =
      { config_type := .Server, config := some DEFAULT_SERVER_PAYLOAD } := rfl

theorem DEFAULT_SERVER_ROOT_valid : RootConfig.valid DEFAULT_SERVER_ROOT := by
  refine ⟨Or.inl rfl, ?_⟩
  intro c hc
  rw [DEFAULT_SERVER_ROOT_eq] at hc
  injection hc with h2
  subst h2
  constructor
  · intro i hi
    simp only [DEFAULT_SERVER_PAYLOAD, List.mem_singleton] at hi
    subst hi
    exact ⟨by norm_num, by norm_num⟩
  · intro o ho
    simp only [DEFAULT_SERVER_PAYLOAD, List.mem_cons, List.mem_singleton,
               List.not_mem_nil, or_false] at ho
    rcases ho with ho | ho <;> subst ho <;> exact ⟨by norm_num, by norm_num⟩

/-! ## Claim theorems -/

/-- C7: for every integer p, constructing an InputSerialConfigItem with
pin p succeeds iff 2 <= p <= 9, and constructing an OutputSerialConfigItem
with pin p succeeds iff 30 <= p <= 37; out-of-range pins are rejected with
an error and in-range pins are stored unchanged, never clamped. -/
theorem C7_pin_ranges :
    (∀ (port : String) (baud cam p : Int),
        (mkInputSerialConfigItem port baud p cam).isOk = true ↔
          (2 ≤ p ∧ p ≤ 9)) ∧
    (∀ (port : String) (baud cam p : Int) (item : InputSerialConfigItem),
        mkInputSerialConfigItem port baud p cam = .ok item → item.pin = p) ∧
    (∀ (port : String) (baud off p : Int),
        (mkOutputSerialConfigItem port baud off p).isOk = true ↔
          (30 ≤ p ∧ p ≤ 37)) ∧
    (∀ (port : String) (baud off p : Int) (item : OutputSerialConfigItem),
        mkOutputSerialConfigItem port baud off p = .ok item → item.pin = p) := by
  refine ⟨?_, ?_, ?_, ?_⟩
  · intro port baud cam p
    by_cases h : 2 ≤ p ∧ p ≤ 9 <;>
      simp [mkInputSerialConfigItem, InputSerialConfigItem.check_pin_range, h,
            Except.isOk, Except.toBool]
  · intro port baud cam p item hmk
    unfold mkInputSerialConfigItem at hmk
    split at hmk
    · exact Except.noConfusion hmk
    · rename_i q hq
      injection hmk with h2
      subst h2
      exact check_input_returns_pin p q hq
  · intro port baud off p
    by_cases h : 30 ≤ p ∧ p ≤ 37 <;>
      simp [mkOutputSerialConfigItem, OutputSerialConfigItem.check_pin_range, h,
            Except.isOk, Except.toBool]
  · intro port baud off p item hmk
    unfold mkOutputSerialConfigItem at hmk
    split at hmk
    · exact Except.noConfusion hmk
    · rename_i q hq
      injection hmk with h2
      subst h2
      exact check_output_returns_pin p q hq

/-- C7 witness: pin 5 is accepted for inputs and stored unchanged, pin 33
likewise for outputs. -/
theorem C7_witness :
    ((mkInputSerialConfigItem "COM4" 38400 5 10).isOk = true) ∧
    (∀ item, mkInputSerialConfigItem "COM4" 38400 5 10 = .ok item →
      item.pin = 5) ∧
    ((mkOutputSerialConfigItem "COM5" 38400 23 33).isOk = true) ∧
    (∀ item, mkOutputSerialConfigItem "COM5" 38400 23 33 = .ok item →
      item.pin = 33) :=
  ⟨(C7_pin_ranges.1 "COM4" 38400 10 5).mpr (by norm_num),
   fun item h => C7_pin_ranges.2.1 "COM4" 38400 10 5 item h,
   (C7_pin_ranges.2.2.1 "COM5" 38400 23 33).mpr (by norm_num),
   fun item h => C7_pin_ranges.2.2.2 "COM5" 38400 23 33 item h⟩

/-- A concrete state whose stored file is `{"config_type": "server",
"config": null}`. -/
def fsC9 : FS :=
  { configFile := some (.jsonText
      (.jobj [("config_type", .jstr "server"), ("config", .jnull)])
      "utf-8" (some 4) false) }

/-- C9: a falsy config payload (None or the empty dict) is stored as None
for either config_type; in particular a server-typed RootConfig with absent
payload is accepted at construction and by load(), and only
load_server_role() replaces it (with the default, which it also writes). -/
theorem C9_falsy_config_stored_none :
    (∀ ct, mkRootConfig ct PyConfigArg.pyNone =
      .ok { config_type := ct, config := none }) ∧
    (∀ ct, mkRootConfig ct (.pyDict []) =
      .ok { config_type := ct, config := none }) ∧
    parseRootConfig (.jobj [("config_type", .jstr "server"), ("config", .jnull)]) =
      .ok { config_type := .Server, config := none } ∧
    load_config fsC9 = .ok ({ config_type := .Server, config := none }, fsC9) ∧
    (load_server_root_config fsC9).map Prod.fst = .ok DEFAULT_SERVER_ROOT := by
  exact ⟨fun ct => rfl, fun ct => rfl, rfl, rfl, rfl⟩

/-- A state with no backup directory at all. -/
def fsC10 : FS := { configFile := none }

/-- C10: with no backup directory, list_unique_timestamps raises
(FileNotFoundError from os.listdir) instead of returning an empty list,
while backup_config creates the directory. -/
theorem C10_list_timestamps_requires_dir :
    (∀ fs : FS, fs.backupDir = none →
      list_unique_timestamps fs =
        .error (.ioError "FileNotFoundError: aiofarm_config_backup")) ∧
    (∀ (fs : FS) (ts : String), fs.backupDir = none →
      (backup_config ts fs).backupDir ≠ none) := by
  constructor
  · intro fs h
    simp [list_unique_timestamps, h]
  · intro fs ts _h
    simp [backup_config]

/-- C10 witness at the concrete directory-less state. -/
theorem C10_witness :
    list_unique_timestamps fsC10 =
      .error (.ioError "FileNotFoundError: aiofarm_config_backup") ∧
    (backup_config "20240101-120000" fsC10).backupDir ≠ none :=
  ⟨C10_list_timestamps_requires_dir.1 fsC10 rfl,
   C10_list_timestamps_requires_dir.2 fsC10 "20240101-120000" rfl⟩

/-- A state as in spec Scenario 6: a live config file, live manifests, and
one config snapshot at timestamp 20240101-120000 in the backup directory. -/
def fsC1 : FS :=
  { configFile := some (.rawText "live config bytes"),
    backupDir := some
      [("aiofarm_config_20240101-120000.json", .rawText "snapshot bytes")],
    pyprojectFile := some (.rawText "pyproject bytes"),
    poetryLockFile := some (.rawText "poetry bytes") }

/-- C1 evaluation at the failing input: rollback of an existing config
snapshot leaves the live config file and both live manifests completely
untouched, and instead deposits the snapshot at `aiofarm_config.json`
INSIDE the backup directory (the source's
`target_path = os.path.join(backup_dir, original_file)`). -/
theorem C1_rollback_copies_into_backup_dir :
    (rollback_config "20240101-120000" fsC1).configFile =
      some (.rawText "live config bytes") ∧
    (rollback_config "20240101-120000" fsC1).pyprojectFile =
      some (.rawText "pyproject bytes") ∧
    (rollback_config "20240101-120000" fsC1).poetryLockFile =
      some (.rawText "poetry bytes") ∧
    (rollback_config "20240101-120000" fsC1).backupDir =
      some [("aiofarm_config_20240101-120000.json", .rawText "snapshot bytes"),
            ("aiofarm_config.json", .rawText "snapshot bytes")] := by
  exact ⟨rfl, rfl, rfl, rfl⟩

/-- C5: whenever the read-and-validate step fails, load_config returns the
hard-coded default (server role, one input on COM4, two outputs with offset
23 on COM5 and COM6, arduino port COM3) and leaves the file system
untouched. -/
theorem C5_load_failure_returns_default (fs : FS) (e : PyError)
    (hfail : tryLoad fs = .error e) :
    load_config fs = .ok (DEFAULT_CONFIG, fs) ∧
    DEFAULT_CONFIG.config_type = ComputerTypeEnum.Server ∧
    (DEFAULT_CONFIG.config.map fun c => c.serial_config.inputs) =
      some [{ port := "COM4" }] ∧
    (DEFAULT_CONFIG.config.map fun c => c.serial_config.outputs) =
      some [{ port := "COM5", offset := 23 }, { port := "COM6", offset := 23 }] ∧
    (DEFAULT_CONFIG.config.map fun c => c.arduino_config.port) = some "COM3" := by
  refine ⟨?_, rfl, rfl, rfl, rfl⟩
  simp [load_config, hfail]

/-- A state with no config file at all (spec Scenario 1). -/
def fsC5 : FS := { configFile := none }

/-- C5 witness: with the config file missing, load_config returns the
default tree and the state is unchanged. -/
theorem C5_witness :
    load_config fsC5 = .ok (DEFAULT_CONFIG, fsC5) ∧
    DEFAULT_CONFIG.config_type = ComputerTypeEnum.Server ∧
    (DEFAULT_CONFIG.config.map fun c => c.serial_config.inputs) =
      some [{ port := "COM4" }] ∧
    (DEFAULT_CONFIG.config.map fun c => c.serial_config.outputs) =
      some [{ port := "COM5", offset := 23 }, { port := "COM6", offset := 23 }] ∧
    (DEFAULT_CONFIG.config.map fun c => c.arduino_config.port) = some "COM3" :=
  C5_load_failure_returns_default fsC5 (.ioError "FileNotFoundError") rfl

/-- The state DEFAULT_SERVER_ROOT leaves after the self-healing rewrite. -/
def healedFS (fs : FS) : FS :=
  { fs with
    configFile := some (.jsonText DEFAULT_SERVER_ROOT.dump "locale" (some 4) true) }

theorem default_passes_check :
    ¬(DEFAULT_SERVER_ROOT.config_type ≠ ComputerTypeEnum.Server ∨
      DEFAULT_SERVER_ROOT.config = none) := by
  simp [DEFAULT_SERVER_ROOT]

theorem lsrc_of_try_error (fs : FS) (e : PyError)
    (hw : fs.configWritable = true) (h : tryLoadForServer fs = .error e) :
    load_server_root_config fs = .ok (DEFAULT_SERVER_ROOT, healedFS fs) := by
  simp only [load_server_root_config, h]
  simp [default_passes_check, writeConfig, hw, healedFS]

theorem lsrc_of_bad_type (fs : FS) (rc : RootConfig)
    (hw : fs.configWritable = true) (h : tryLoadForServer fs = .ok rc)
    (hne : rc.config_type ≠ ComputerTypeEnum.Server) :
    load_server_root_config fs = .ok (DEFAULT_SERVER_ROOT, healedFS fs) := by
  simp only [load_server_root_config, h]
  simp [hne, writeConfig, hw, healedFS]

/-- C2: whenever the stored file parses to a RootConfig whose config_type
is not server, or whose payload is missing, or whose payload fails
re-validation as a ServerConfig, load_server_root_config returns
DEFAULT_SERVER_ROOT and overwrites the on-disk file with it. -/
theorem C2_load_server_role_self_heals (fs : FS) (data : JVal)
    (rc : RootConfig)
    (hw : fs.configWritable = true)
    (hread : readConfigJson fs = .ok data)
    (hparse : parseRootConfig data = .ok rc)
    (hbad : rc.config_type ≠ ComputerTypeEnum.Server ∨ rc.config = none ∨
            ∃ c e, rc.config = some c ∧ parseServerConfig c.dump = .error e) :
    load_server_root_config fs = .ok (DEFAULT_SERVER_ROOT, healedFS fs) := by
  rcases hbad with hne | hnone | ⟨c, e, hc, hpe⟩
  · cases hcfg : rc.config with
    | none =>
      refine lsrc_of_try_error fs (.attributeError "NoneType object has no attribute model_dump") hw ?_
      simp [tryLoadForServer, hread, hparse, hcfg]
    | some c =>
      cases hp : parseServerConfig c.dump with
      | error e2 =>
        refine lsrc_of_try_error fs (.validationError e2) hw ?_
        simp [tryLoadForServer, hread, hparse, hcfg, hp]
      | ok s =>
        refine lsrc_of_bad_type fs rc hw ?_ hne
        simp [tryLoadForServer, hread, hparse, hcfg, hp]
  · refine lsrc_of_try_error fs (.attributeError "NoneType object has no attribute model_dump") hw ?_
    simp [tryLoadForServer, hread, hparse, hnone]
  · refine lsrc_of_try_error fs (.validationError e) hw ?_
    simp [tryLoadForServer, hread, hparse, hc, hpe]

/-- A writable state whose stored file is `{"config_type": "vision"}`
(spec Scenario 2). -/
def fsC2 : FS :=
  { configFile := some (.jsonText
      (.jobj [("config_type", .jstr "vision")]) "utf-8" (some 4) false) }

/-- C2 witness: a stored vision-typed config makes load_server_root_config
return the default server tree and rewrite the file with it. -/
theorem C2_witness :
    load_server_root_config fsC2 = .ok (DEFAULT_SERVER_ROOT, healedFS fsC2) :=
  C2_load_server_role_self_heals fsC2
    (.jobj [("config_type", .jstr "vision")])
    { config_type := .Vision, config := none }
    rfl rfl rfl (Or.inl (by simp))

/-- C4 counterexample: with a bad stored config AND an unwritable config
path, load_server_root_config propagates the PermissionError raised by the
self-healing rewrite (the `open(..., "w")` on line 253 is outside the
try-block), so it does not always return a RootConfig. -/
def fsC4 : FS := { configFile := none, configWritable := false }

theorem C4_counterexample :
    load_server_root_config fsC4 = .error (.ioError "PermissionError") := rfl

/-- C4 amended: load_config never propagates an exception for any
file-system state; load_server_root_config never propagates one provided
the config file is writable (its only raising path is the self-heal
rewrite). -/
theorem C4_amended :
    (∀ fs : FS, (load_config fs).isOk = true) ∧
    (∀ fs : FS, fs.configWritable = true →
      (load_server_root_config fs).isOk = true) := by
  constructor
  · intro fs
    cases h : tryLoad fs <;> simp [load_config, h, Except.isOk, Except.toBool]
  · intro fs hw
    cases h : tryLoadForServer fs with
    | error e =>
      rw [lsrc_of_try_error fs e hw h]
      rfl
    | ok rc =>
      by_cases hne : rc.config_type = ComputerTypeEnum.Server
      · by_cases hcfg : rc.config = none
        · simp only [load_server_root_config, h]
          simp [hcfg, writeConfig, hw, Except.isOk, Except.toBool]
        · simp only [load_server_root_config, h]
          simp [hne, hcfg, writeConfig, hw, Except.isOk, Except.toBool]
      · rw [lsrc_of_bad_type fs rc hw h hne]
        rfl

/-- C4 witness: at a state with a missing (but writable) config file both
loaders return without raising. -/
def fsW4 : FS := { configFile := none }

theorem C4_witness :
    ((load_config fsW4).isOk = true) ∧
    ((load_server_root_config fsW4).isOk = true) :=
  ⟨C4_amended.1 fsW4, C4_amended.2 fsW4 rfl⟩

/-- An unwritable state for exercising save_config's write failure. -/
def fsC3 : FS := { configFile := none, configWritable := false }

/-- C3 counterexample: on an unwritable path, save_config propagates the
PermissionError instead of reporting failure through a return value (the
Python function has no return statement at all, so its value is always
None). -/
theorem C3_counterexample :
    save_config DEFAULT_SERVER_ROOT fsC3 = .error (.ioError "PermissionError") := rfl

/-- C3 amended: save_config re-validates the tree and overwrites the fixed
path with UTF-8 JSON at indent 4, but it returns None (here Unit) rather
than a success flag, and a write failure propagates as an exception. -/
theorem C3_amended (rc : RootConfig) (fs : FS)
    (hvalid : rc.valid) (hw : fs.configWritable = true) :
    save_config rc fs =
      .ok ((), { fs with
        configFile := some (.jsonText rc.dump "utf-8" (some 4) false) }) ∧
    (∀ fs2 : FS, fs2.configWritable = false →
      save_config rc fs2 = .error (.ioError "PermissionError")) := by
  have hre := mkRootConfig_dump rc hvalid
  constructor
  · simp [save_config, hre, writeConfig, hw]
  · intro fs2 h2
    simp [save_config, hre, writeConfig, h2]

/-- A writable state for the C3 witness. -/
def fsW3 : FS := { configFile := none }

/-- C3 witness: saving the default tree on a writable state writes the
dumped JSON, and on the unwritable state raises. -/
theorem C3_witness :
    save_config DEFAULT_SERVER_ROOT fsW3 =
      .ok ((), { fsW3 with
        configFile := some (.jsonText DEFAULT_SERVER_ROOT.dump "utf-8" (some 4) false) }) ∧
    save_config DEFAULT_SERVER_ROOT fsC3 = .error (.ioError "PermissionError") :=
  ⟨(C3_amended DEFAULT_SERVER_ROOT fsW3 DEFAULT_SERVER_ROOT_valid rfl).1,
   (C3_amended DEFAULT_SERVER_ROOT fsW3 DEFAULT_SERVER_ROOT_valid rfl).2 fsC3 rfl⟩

/-- Any value the before-validator accepts under vision is None or a
VisionConfig. -/
theorem validate_vision_cases (arg v : PyConfigArg)
    (h : RootConfig.validate_config ComputerTypeEnum.Vision arg = .ok v) :
    v = .pyNone ∨ v = .pyVision := by
  unfold RootConfig.validate_config at h
  split at h
  · injection h with h2
    exact Or.inl h2.symm
  · cases arg
    all_goals first
      | exact Except.noConfusion h
      | (injection h with h2; exact Or.inr h2.symm)

/-- C6 counterexample: (a) a server-typed RootConfig is successfully
constructed with NO payload, so "server implies config is a ServerConfig"
fails; (b) a vision-typed RootConfig with a non-empty dict payload is
rejected (the declared field type `Optional[Union[ServerConfig]]` admits no
VisionConfig), so "a dict payload is coerced into the type matching
config_type" fails; (c) even a VisionConfig instance is rejected under
vision — which is why the source's DEFAULT_VISION_ROOT_CONFIG is commented
out. -/
theorem C6_counterexample :
    mkRootConfig ComputerTypeEnum.Server PyConfigArg.pyNone =
      .ok { config_type := ComputerTypeEnum.Server, config := none } ∧
    mkRootConfig ComputerTypeEnum.Vision (.pyDict [("line_count", .jnum 1)]) =
      .error "Input should be a valid dictionary or instance of ServerConfig" ∧
    mkRootConfig ComputerTypeEnum.Vision PyConfigArg.pyVision =
      .error "Input should be a valid dictionary or instance of ServerConfig" :=
  ⟨rfl, rfl, rfl⟩

/-- C6 amended: in every successfully constructed RootConfig, a vision root
has config = None (any truthy payload is rejected by the declared field
type); under server, a ServerConfig instance is stored as-is, a non-empty
dict is coerced through ServerConfig validation, mismatched instances are
rejected; a falsy payload is stored as None for either config_type. -/
theorem C6_amended :
    (∀ (arg : PyConfigArg) (rc : RootConfig),
        mkRootConfig ComputerTypeEnum.Vision arg = .ok rc →
          rc.config = none) ∧
    (∀ c : ServerConfig,
        mkRootConfig ComputerTypeEnum.Server (.pyServer c) =
          .ok { config_type := ComputerTypeEnum.Server, config := some c }) ∧
    (∀ fields, fields ≠ [] →
        mkRootConfig ComputerTypeEnum.Server (.pyDict fields) =
          (parseServerConfig (.jobj fields)).map
            fun c => { config_type := ComputerTypeEnum.Server,
                       config := some c }) ∧
    (∀ fields, fields ≠ [] → ∃ e,
        mkRootConfig ComputerTypeEnum.Vision (.pyDict fields) = .error e) ∧
    (∀ c : ServerConfig, ∃ e,
        mkRootConfig ComputerTypeEnum.Vision (.pyServer c) = .error e) ∧
    (∃ e, mkRootConfig ComputerTypeEnum.Server PyConfigArg.pyVision =
        .error e) ∧
    (∀ ct, mkRootConfig ct PyConfigArg.pyNone =
        .ok { config_type := ct, config := none }) := by
  refine ⟨?_, fun c => rfl, ?_, ?_, ?_, ?_, fun ct => rfl⟩
  · intro arg rc h
    unfold mkRootConfig at h
    split at h
    · exact Except.noConfusion h
    · rename_i v hv
      split at h
      · exact Except.noConfusion h
      · rename_i c hc
        injection h with h2
        subst h2
        rcases validate_vision_cases arg v hv with h3 | h3 <;> subst h3
        · injection hc with h4
          exact h4.symm
        · exact Except.noConfusion hc
  · intro fields hne
    have hie : fields.isEmpty = false := by
      cases fields with
      | nil => exact absurd rfl hne
      | cons a t => rfl
    cases hp : parseServerConfig (.jobj fields) <;>
      simp [mkRootConfig, RootConfig.validate_config, PyConfigArg.falsy, hie,
            coerceConfigField, hp, Except.map]
  · intro fields hne
    have hie : fields.isEmpty = false := by
      cases fields with
      | nil => exact absurd rfl hne
      | cons a t => rfl
    refine ⟨"Input should be a valid dictionary or instance of ServerConfig", ?_⟩
    simp [mkRootConfig, RootConfig.validate_config, PyConfigArg.falsy, hie,
          coerceConfigField]
  · intro c
    exact ⟨"When config_type is vision, config must be of type VisionConfig", rfl⟩
  · exact ⟨"When config_type is server, config must be of type ServerConfig", rfl⟩

/-- C6 witness: a non-empty dict payload is coerced under server and
rejected under vision. -/
theorem C6_witness :
    (mkRootConfig ComputerTypeEnum.Server
        (.pyDict [("program_check", .jbool true)]) =
      (parseServerConfig (.jobj [("program_check", .jbool true)])).map
        fun c => { config_type := ComputerTypeEnum.Server,
                   config := some c }) ∧
    (∃ e, mkRootConfig ComputerTypeEnum.Vision
        (.pyDict [("program_check", .jbool true)]) = .error e) :=
  ⟨C6_amended.2.2.1 [("program_check", .jbool true)] (by simp),
   C6_amended.2.2.2.1 [("program_check", .jbool true)] (by simp)⟩

/-- C8: for every pydantic-representable RootConfig, saving it and then
loading reads back a structurally equal tree (the file round trip is
lossless). -/
theorem C8_save_load_roundtrip (rc : RootConfig) (fs : FS)
    (hvalid : rc.valid) (hr : fs.configReadable = true)
    (hw : fs.configWritable = true) :
    ∃ fs2 : FS, save_config rc fs = .ok ((), fs2) ∧
      load_config fs2 = .ok (rc, fs2) := by
  refine ⟨{ fs with
    configFile := some (.jsonText rc.dump "utf-8" (some 4) false) }, ?_, ?_⟩
  · simp [save_config, mkRootConfig_dump rc hvalid, writeConfig, hw]
  · simp [load_config, tryLoad, readConfigJson, hr,
          parseRootConfig_dump rc hvalid]

/-- A fresh writable and readable state for the C8 witness. -/
def fsW8 : FS := { configFile := none }

/-- C8 witness: the default server tree survives a save-then-load round
trip. -/
theorem C8_witness :
    ∃ fs2 : FS, save_config DEFAULT_SERVER_ROOT fsW8 = .ok ((), fs2) ∧
      load_config fs2 = .ok (DEFAULT_SERVER_ROOT, fs2) :=
  C8_save_load_roundtrip DEFAULT_SERVER_ROOT fsW8 DEFAULT_SERVER_ROOT_valid
    rfl rfl

/-- C9 witness: the empty dict payload under server is stored as None. -/
theorem C9_witness :
    mkRootConfig ComputerTypeEnum.Server (.pyDict []) =
      .ok { config_type := ComputerTypeEnum.Server, config := none } :=
  C9_falsy_config_stored_none.2.1 ComputerTypeEnum.Server
